import Mathlib

/-!
Verification development for the AI-Arbiter repository.

The Python sources (src/models.py, src/agent.py, src/services.py,
src/main.py) are shallowly embedded below.  Machine-level details that the
claims do not depend on are represented abstractly but faithfully:

* UUIDs and datetimes are carried as opaque strings (only their canonical
  string forms are observable in the code under study);
* pydantic field validation is modelled by explicit smart constructors
  returning `Except`;
* Python attribute access on a pydantic model is modelled by a lookup over
  the list of fields the class actually declares -- an undeclared name
  raises `AttributeError`, exactly as in CPython;
* the reasoning backend (pydantic-ai agent) is an external capability and
  is modelled as an input script of outcomes;
* `async` generators are modelled as functions returning the list of
  frames they yield.
-/

namespace AIArbiter

/-- The single-quote character, used by Python f-strings and reprs. -/
def sq : String := String.mk [Char.ofNat 39]

/-- Python exception values observable in this code base. -/
inductive PyError
  | runtimeError (msg : String)
  | valueError (msg : String)
  | typeError (msg : String)
  | attributeError (name : String)
  | validationError (msg : String)
  | nameError (name : String)
deriving DecidableEq, Repr

/-- Models Python `str(e)` for the exceptions above (the message text). -/
def PyError.message : PyError → String
  | .runtimeError m => m
  | .valueError m => m
  | .typeError m => m
  | .attributeError n =>
      sq ++ "ArbitrationDecision" ++ sq ++ " object has no attribute " ++ sq ++ n ++ sq
  | .validationError m => m
  | .nameError n => "name " ++ sq ++ n ++ sq ++ " is not defined"

/-- A datetime value: its ISO form (`isoformat()`) and its `repr`. -/
structure DateTime where
  iso : String
  rep : String
deriving DecidableEq, Repr

/-- models.py `DecisionType` enumeration. -/
inductive DecisionType
  | approve_opposer
  | reject_opposer
  | needs_more_info
  | request_opposer_evidence
  | request_defender_evidence
deriving DecidableEq, Repr

/-- The `.value` of each `DecisionType` member (models.py lines 147-151). -/
def DecisionType.value : DecisionType → String
  | .approve_opposer => "approve_opposer"
  | .reject_opposer => "reject_opposer"
  | .needs_more_info => "needs_more_info"
  | .request_opposer_evidence => "request_opposer_evidence"
  | .request_defender_evidence => "request_defender_evidence"

/-- models.py `Policy` (id and creator_id are UUID strings). -/
structure Policy where
  id : String
  creator_id : String
  name : String
  description : Option String
  created_at : DateTime
deriving DecidableEq, Repr

/-- models.py `Evidence`. -/
structure Evidence where
  id : String
  policy_id : String
  submitter_id : String
  content : String
  created_at : DateTime
deriving DecidableEq, Repr

/-- models.py `ArbitrationDecision`.  The declared fields are exactly
`id, policy_id, opposer_id, defender_id, decision_type, decision,
confidence, reasoning, created_at` (lines 184-192).  The class declares
no `message` field. -/
structure ArbitrationDecision where
  id : String
  policy_id : String
  opposer_id : String
  defender_id : String
  decision_type : DecisionType
  decision : String
  confidence : ℚ
  reasoning : String
  created_at : DateTime
deriving DecidableEq, Repr

/-- pydantic `confloat(ge=0.0, le=1.0)` on `ArbitrationDecision.confidence`:
values outside the closed interval fail validation; in-range values are
passed through unchanged (no clamping). -/
def confloat01 (q : ℚ) : Except PyError ℚ :=
  if 0 ≤ q ∧ q ≤ 1 then Except.ok q
  else Except.error (PyError.validationError "confidence: input should be in the interval [0.0, 1.0]")

/-- Constructing an `ArbitrationDecision` through pydantic validation.
Field order follows models.py. -/
def mkArbitrationDecision (i pid oid did : String) (dt : DecisionType)
    (dec : String) (conf : ℚ) (reas : String) (cat : DateTime) :
    Except PyError ArbitrationDecision := do
  let c ← confloat01 conf
  Except.ok ⟨i, pid, oid, did, dt, dec, c, reas, cat⟩

/-- Dynamic values produced by attribute lookup on a decision. -/
inductive PyVal
  | vStr (s : String)
  | vRat (q : ℚ)
  | vUuid (u : String)
  | vDT (t : DateTime)
  | vDType (t : DecisionType)
deriving DecidableEq, Repr

/-- CPython attribute lookup on an `ArbitrationDecision` instance: the
pydantic model exposes exactly its declared fields; any other name is
absent.  The table below lists every field declared in models.py. -/
def ArbitrationDecision.lookupAttr (d : ArbitrationDecision) (name : String) : Option PyVal :=
  if name = "id" then some (PyVal.vUuid d.id)
  else if name = "policy_id" then some (PyVal.vUuid d.policy_id)
  else if name = "opposer_id" then some (PyVal.vUuid d.opposer_id)
  else if name = "defender_id" then some (PyVal.vUuid d.defender_id)
  else if name = "decision_type" then some (PyVal.vDType d.decision_type)
  else if name = "decision" then some (PyVal.vStr d.decision)
  else if name = "confidence" then some (PyVal.vRat d.confidence)
  else if name = "reasoning" then some (PyVal.vStr d.reasoning)
  else if name = "created_at" then some (PyVal.vDT d.created_at)
  else none

/-- Python attribute access `decision.<name>`: an undeclared attribute raises
`AttributeError`. -/
def pyGetAttr (d : ArbitrationDecision) (name : String) : Except PyError PyVal :=
  match d.lookupAttr name with
  | some v => Except.ok v
  | none => Except.error (PyError.attributeError name)

/-- Python `str(...)` on a looked-up UUID value; other constructors are
unreachable at the call sites below. -/
def pyStrOfUuid : PyVal → String
  | PyVal.vUuid u => u
  | PyVal.vStr s => s
  | PyVal.vRat q => toString q
  | PyVal.vDT t => t.iso
  | PyVal.vDType t => t.value

/-- Extract a plain string (unreachable fallback returns ""). -/
def pyAsStr : PyVal → String
  | PyVal.vStr s => s
  | _ => ""

/-- Extract a rational (unreachable fallback returns 0). -/
def pyAsRat : PyVal → ℚ
  | PyVal.vRat q => q
  | _ => 0

/-- Extract `.value` of a decision type (unreachable fallback). -/
def pyAsDTypeValue : PyVal → String
  | PyVal.vDType t => t.value
  | _ => ""

/-- Extract `.isoformat()` of a datetime (unreachable fallback). -/
def pyAsIso : PyVal → String
  | PyVal.vDT t => t.iso
  | _ => ""

/-- The wire dict built by `_format_arbitration_decision`
(services.py lines 198-216), flattened: the `arbitration_result`
entries followed by the `metadata` entries. -/
structure FormattedResponse where
  decision_id : String
  policy_id : String
  opposer_id : String
  defender_id : String
  decision_type : String
  decision : String
  message : String
  confidence_score : ℚ
  reasoning : String
  created_at : String
  processing_completed : Bool
  agent_version : String
  service_version : String
deriving DecidableEq, Repr

/-- services.py `_format_arbitration_decision` (lines 188-219).  Every
value expression of the dict literal is an attribute access on
`decision`; each access goes through `pyGetAttr` with the names written
in the source, in source order. -/
def formatArbitrationDecision (d : ArbitrationDecision) : Except PyError FormattedResponse := do
  let vId ← pyGetAttr d "id"
  let vPol ← pyGetAttr d "policy_id"
  let vOpp ← pyGetAttr d "opposer_id"
  let vDef ← pyGetAttr d "defender_id"
  let vDT ← pyGetAttr d "decision_type"
  let vDec ← pyGetAttr d "decision"
  let vMsg ← pyGetAttr d "message"
  let vConf ← pyGetAttr d "confidence"
  let vReas ← pyGetAttr d "reasoning"
  let vCat ← pyGetAttr d "created_at"
  Except.ok ⟨pyStrOfUuid vId, pyStrOfUuid vPol, pyStrOfUuid vOpp, pyStrOfUuid vDef,
    pyAsDTypeValue vDT, pyAsStr vDec, pyAsStr vMsg, pyAsRat vConf, pyAsStr vReas,
    pyAsIso vCat, true, "1.0.0", "1.0.0"⟩

end AIArbiter

namespace AIArbiter

/-- pydantic-ai `RunContext` as used by agent.py: it carries the
conversation messages read by the system prompt. -/
structure RunCtx where
  messages : List String
deriving DecidableEq, Repr

/-- agent.py `ArbiterDependency` (lines 31-54).  NOTE: in the source the
`context` field is annotated `Optional[RunContext]` but is given no
dataclass default, so it is a required `__init__` argument; `Optional`
alone does not supply `None`. -/
structure ArbiterDependency where
  policy : Policy
  opposer_evidences : List Evidence
  defender_evidences : List Evidence
  context : Option RunCtx
deriving DecidableEq, Repr

/-- services.py line 125: the ValueError message. -/
def policyRequiredMsg : String := "Policy data is required for arbitration"

/-- The TypeError raised by `ArbiterDependency.__init__` when the
required `context` argument is not supplied. -/
def missingContextMsg : String :=
  "ArbiterDependency.__init__() missing 1 required positional argument: " ++ sq ++ "context" ++ sq

/-- Generic dataclass error for other missing arguments (not reached by
the code under study). -/
def missingArgsMsg : String :=
  "ArbiterDependency.__init__() missing required positional arguments"

/-- The `ArbiterDependency(...)` constructor call with keyword
arguments, following Python dataclass `__init__` semantics: every field
without a dataclass default is required; an absent required argument
raises `TypeError`. -/
def mkArbiterDependency (policyArg : Option Policy) (oppArg defArg : Option (List Evidence))
    (ctxArg : Option (Option RunCtx)) : Except PyError ArbiterDependency :=
  match policyArg, oppArg, defArg, ctxArg with
  | some p, some o, some d, some c => Except.ok ⟨p, o, d, c⟩
  | some _, some _, some _, none => Except.error (PyError.typeError missingContextMsg)
  | _, _, _, _ => Except.error (PyError.typeError missingArgsMsg)

/-- The deserialized request dict consumed by the service
(`request_data`).  A missing or `None` `policy` key is `none`; the
evidence lists and `user_query` use the `.get` defaults `[]` and `""`
from the source.  Policies and evidences arriving as dicts are converted
through their pydantic constructors upstream of the properties studied
here, so the lists carry already validated objects. -/
structure RequestData where
  policy : Option Policy
  opposer_evidences : List Evidence
  defender_evidences : List Evidence
  user_query : String
deriving DecidableEq, Repr

/-- services.py `_prepare_agent_dependencies` (lines 112-159): reject a
missing or falsy policy with `ValueError`, then call
`ArbiterDependency(policy=..., opposer_evidences=..., defender_evidences=...)`
-- the call at lines 152-156 passes no `context` argument. -/
def prepareAgentDependencies (req : RequestData) : Except PyError ArbiterDependency :=
  match req.policy with
  | none => Except.error (PyError.valueError policyRequiredMsg)
  | some p =>
      mkArbiterDependency (some p) (some req.opposer_evidences)
        (some req.defender_evidences) none

end AIArbiter

namespace AIArbiter

/-- One outcome of `self.agent.run(...)`: either the decision extracted
from `result.output`, or the exception the reasoning backend raised. -/
abbrev BackendResult : Type := Except PyError ArbitrationDecision

/-- services.py `_call_agent` (lines 161-186): one `agent.run`
invocation consumes one scripted backend outcome; the `except` clause
logs and re-raises the same exception (`raise` with no argument), so
errors propagate unchanged and no retry is issued.  The function
returns the result together with the unconsumed remainder of the
script, making the number of backend invocations observable. -/
def callAgent (_userQuery : String) (_deps : ArbiterDependency)
    (backend : List BackendResult) : Except PyError ArbitrationDecision × List BackendResult :=
  match backend with
  | [] => (Except.error (PyError.runtimeError "no backend response"), [])
  | r :: rest => (r, rest)

/-- The service object state: services.py `__init__` sets
`is_initialized = False`. -/
structure ServiceState where
  is_initialized : Bool
deriving DecidableEq, Repr

/-- The `ArbiterService()` constructor. -/
def mkArbiterService : ServiceState := ⟨false⟩

/-- services.py `initialize` (lines 24-35): sets `is_initialized = True`. -/
def initializeService (_svc : ServiceState) : ServiceState := ⟨true⟩

/-- The guard message raised by both processing entry points. -/
def notInitializedMsg : String := "Service not initialized"

/-- services.py `process_arbitration` (lines 49-83): guard on
`is_initialized`, prepare dependencies, call the agent, format the
decision.  The surrounding try/except logs and re-raises, so every
error crosses unchanged. -/
def processArbitration (svc : ServiceState) (req : RequestData)
    (backend : List BackendResult) : Except PyError FormattedResponse :=
  if svc.is_initialized = false then
    Except.error (PyError.runtimeError notInitializedMsg)
  else do
    let deps ← prepareAgentDependencies req
    let decision ← (callAgent req.user_query deps backend).1
    formatArbitrationDecision decision

/-- The HTTP-level outcome of `POST /arbitrate`. -/
inductive ApiResponse
  | success (result : FormattedResponse)
  | failure (status : Nat) (detail : String)
deriving DecidableEq, Repr

/-- main.py `arbitrate_query` (lines 94-111): on success wrap the
formatted result in `{"status": "success", "result": ...}`; on any
exception raise `HTTPException(500, "Arbitration processing failed")`,
which the exception handler turns into an error response. -/
def arbitrateQuery (svc : ServiceState) (req : RequestData)
    (backend : List BackendResult) : ApiResponse :=
  match processArbitration svc req backend with
  | Except.ok r => ApiResponse.success r
  | Except.error _ => ApiResponse.failure 500 "Arbitration processing failed"

end AIArbiter

namespace AIArbiter

/-! ### Streaming path

`process_arbitration_stream` (services.py lines 86-108) is an async
generator.  It is modelled as a function from the request and a script
of agent-stream outcomes to the list of yielded frames.  The script
records which partial outputs `stream.stream_output()` delivers and
whether the backend raises afterwards instead of completing. -/

/-- What the external agent stream does: it yields `parts` and then
either completes normally (`outcome = none`) or raises (`outcome =
some e`). -/
structure AgentStreamScript where
  parts : List ArbitrationDecision
  outcome : Option PyError
deriving DecidableEq, Repr

/-- A JSON value in the frame payloads: a string, or an
already-serialized nested object. -/
inductive JVal
  | jstr (s : String)
  | jraw (s : String)
deriving DecidableEq, Repr

/-- Minimal `json.dumps` escaping for the string payloads involved. -/
def jsonEscapeChar (c : Char) : String :=
  if c = Char.ofNat 34 then "\\\""
  else if c = Char.ofNat 92 then "\\\\"
  else String.mk [c]

/-- Python `json.dumps` of a string. -/
def jsonStr (s : String) : String :=
  "\"" ++ String.join (s.data.map jsonEscapeChar) ++ "\""

/-- Python `str.join` semantics. -/
def pyJoin (sep : String) : List String → String
  | [] => ""
  | [s] => s
  | s :: rest => s ++ sep ++ pyJoin sep (rest)

/-- One `"key": value` entry of `json.dumps` output. -/
def dumpKV : String × JVal → String
  | (k, JVal.jstr s) => jsonStr k ++ ": " ++ jsonStr s
  | (k, JVal.jraw s) => jsonStr k ++ ": " ++ s

/-- Python `json.dumps` of a dict with the default separators. -/
def dumpsObj (l : List (String × JVal)) : String :=
  "\x7b" ++ pyJoin ", " (l.map dumpKV) ++ "\x7d"

/-- Python `json.dumps` of a formatted decision (the nested wire dict). -/
def dumpsFormatted (f : FormattedResponse) : String :=
  dumpsObj
    [("arbitration_result", JVal.jraw (dumpsObj
        [("decision_id", JVal.jstr f.decision_id),
         ("policy_id", JVal.jstr f.policy_id),
         ("opposer_id", JVal.jstr f.opposer_id),
         ("defender_id", JVal.jstr f.defender_id),
         ("decision_type", JVal.jstr f.decision_type),
         ("decision", JVal.jstr f.decision),
         ("message", JVal.jstr f.message),
         ("confidence_score", JVal.jraw (toString f.confidence_score)),
         ("reasoning", JVal.jstr f.reasoning),
         ("created_at", JVal.jstr f.created_at)])),
     ("metadata", JVal.jraw (dumpsObj
        [("processing_completed", JVal.jraw (if f.processing_completed then "true" else "false")),
         ("agent_version", JVal.jstr f.agent_version),
         ("service_version", JVal.jstr f.service_version)]))]

/-- services.py line 101: the frame yielded for each partial output.
The f-string is literally
`f"'type': 'partial', data: {json.dumps(formatted_result)}\n\n"`. -/
def partFrame (dumped : String) : String :=
  sq ++ "type" ++ sq ++ ": " ++ sq ++ "partial" ++ sq ++ ", data: " ++ dumped ++ "\n\n"

/-- The payload of the completion frame (services.py line 104). -/
def completePayload (dumpedData : String) : List (String × JVal) :=
  [("type", JVal.jstr "complete"), ("message", JVal.jstr "done"),
   ("data", JVal.jraw dumpedData)]

/-- services.py line 104: the completion frame. -/
def completeFrame (dumpedData : String) : String :=
  "data: " ++ dumpsObj (completePayload dumpedData) ++ "\n\n"

/-- The payload of the error frame yielded by the service generator
(services.py line 108): only `type` and `message`, no timestamp. -/
def errorPayload (msg : String) : List (String × JVal) :=
  [("type", JVal.jstr "error"), ("message", JVal.jstr msg)]

/-- services.py line 108: the error frame of the service generator. -/
def serviceErrorFrame (msg : String) : String :=
  "data: " ++ dumpsObj (errorPayload msg) ++ "\n\n"

/-- main.py lines 128-133: the error frame yielded by
`generate_stream` when the service generator itself raises; it carries
a timestamp. -/
def mainErrorFrame (msg ts : String) : String :=
  "data: " ++ dumpsObj
    [("type", JVal.jstr "error"), ("message", JVal.jstr msg),
     ("timestamp", JVal.jstr ts)] ++ "\n\n"

/-- The `async for` loop of the generator (services.py lines 99-101):
format each partial output and yield its frame; the first exception
aborts the loop.  Returns the frames yielded so far, the last value of
the Python variable `formatted_result`, and the aborting exception if
any. -/
def emitLoop (acc : List String) (lastFmt : Option FormattedResponse) :
    List ArbitrationDecision → List String × Option FormattedResponse × Option PyError
  | [] => (acc, lastFmt, none)
  | p :: rest =>
    match formatArbitrationDecision p with
    | Except.error e => (acc, lastFmt, some e)
    | Except.ok f => emitLoop (acc ++ [partFrame (dumpsFormatted f)]) (some f) rest

/-- The `try` block of the generator: the frames yielded before any
exception, paired with the exception if one was raised.  When the loop
body never ran, the completion yield reads the unbound local
`formatted_result` and raises `NameError`. -/
def streamAttempt (req : RequestData) (script : AgentStreamScript) :
    List String × Option PyError :=
  match prepareAgentDependencies req with
  | Except.error e => ([], some e)
  | Except.ok _ =>
    match emitLoop [] none script.parts with
    | (frames, _, some e) => (frames, some e)
    | (frames, lastFmt, none) =>
      match script.outcome with
      | some e => (frames, some e)
      | none =>
        match lastFmt with
        | none => (frames, some (PyError.nameError "formatted_result"))
        | some f => (frames ++ [completeFrame (dumpsFormatted f)], none)

/-- The whole generator body: the `except` clause (services.py lines
106-108) appends a single error frame after the frames already
yielded. -/
def streamBody (req : RequestData) (script : AgentStreamScript) : List String :=
  match streamAttempt req script with
  | (frames, none) => frames
  | (frames, some e) => frames ++ [serviceErrorFrame (PyError.message e)]

/-- services.py lines 87-88: the initialization guard sits before the
`try`, so an uninitialized service raises `RuntimeError` out of the
generator instead of yielding frames. -/
def processArbitrationStream (svc : ServiceState) (req : RequestData)
    (script : AgentStreamScript) : Except PyError (List String) :=
  if svc.is_initialized = false then
    Except.error (PyError.runtimeError notInitializedMsg)
  else Except.ok (streamBody req script)

/-- main.py `generate_stream` (lines 122-133): forward the service
frames; if the service generator raises, yield one error frame with a
timestamp. -/
def generateStream (ts : String) (svc : ServiceState) (req : RequestData)
    (script : AgentStreamScript) : List String :=
  match processArbitrationStream svc req script with
  | Except.ok frames => frames
  | Except.error e => [mainErrorFrame (PyError.message e) ts]

end AIArbiter

namespace AIArbiter

/-! ### agent.py: system prompt and tools -/

/-- CPython `repr` of a pydantic `Evidence` instance, as interpolated
by an f-string containing a list of evidences.  Its exact framing text
is library detail; what matters below is that it is a single chunk
embedding `content` between quote characters, in field order. -/
def reprEvidence (e : Evidence) : String :=
  "Evidence(id=UUID(" ++ sq ++ e.id ++ sq ++ "), policy_id=UUID(" ++ sq ++ e.policy_id ++ sq
    ++ "), submitter_id=UUID(" ++ sq ++ e.submitter_id ++ sq ++ "), content=" ++ sq
    ++ e.content ++ sq ++ ", created_at=" ++ e.created_at.rep ++ ")"

/-- CPython `repr` of a list, `[r1, r2, ...]`, with elements rendered
by `f`. -/
def pyListReprWith (f : α → String) (l : List α) : String :=
  "[" ++ pyJoin ", " (l.map f) ++ "]"

/-- The f-string interpolation of an evidence list. -/
def pyListRepr (l : List Evidence) : String := pyListReprWith reprEvidence l

/-- The f-string interpolation of a message list. -/
def pyStrListRepr (l : List String) : String :=
  pyListReprWith (fun s => sq ++ s ++ sq) l

/-- Python `str` of a pydantic `Policy` (pydantic renders the fields in
declaration order). -/
def strPolicy (p : Policy) : String :=
  "id=UUID(" ++ sq ++ p.id ++ sq ++ ") creator_id=UUID(" ++ sq ++ p.creator_id ++ sq
    ++ ") name=" ++ sq ++ p.name ++ sq ++ " description="
    ++ (match p.description with
        | none => "None"
        | some d => sq ++ d ++ sq)
    ++ " created_at=" ++ p.created_at.rep

/-- The fixed leading text of the system prompt f-string
(agent.py lines 68-73), ending right before the policy
interpolation. -/
def rubricText : String :=
  "\n    You are a policy arbiter agent. Your task is to evaluate opposers responses for the following policy.\n    You can ask clarifying questions if needed.\n    You will be provided with the policy and evidences of the defendent of the policy.\n\n    Policy:\n    "

/-- The text between the policy and the defender evidence section. -/
def defenderHeader : String := "\n\n    Defender Evidence:\n    "

/-- The text between the defender and the opposer evidence section. -/
def opposerHeader : String := "\n\n    Opposer Evidence:\n    "

/-- The text between the opposer evidence and the history section. -/
def contextHeader : String := "\n\n    Context:\n    "

/-- The trailing text of the prompt. -/
def promptTail : String := "\n    "

/-- agent.py `get_system_prompt` (lines 66-84).  The f-string
interpolates, in this fixed order: the policy, the defender evidence
list, the opposer evidence list, and `ctx.deps.context.messages`.  When
`context` is `None` the attribute access `.messages` raises
`AttributeError`. -/
def getSystemPrompt (deps : ArbiterDependency) : Except PyError String :=
  match deps.context with
  | none => Except.error (PyError.attributeError "messages")
  | some c =>
      Except.ok (rubricText ++ strPolicy deps.policy
        ++ defenderHeader ++ pyListRepr deps.defender_evidences
        ++ opposerHeader ++ pyListRepr deps.opposer_evidences
        ++ contextHeader ++ pyStrListRepr c.messages ++ promptTail)

/-- The state visible to a tool through its `RunContext`: the
dependencies and the conversation message history. -/
structure ToolCtx where
  deps : ArbiterDependency
  messages : List String
deriving DecidableEq, Repr

/-- agent.py `request_opposer_evidence` (lines 88-113): after a
simulated delay, return
`f"Simulated response to '{question}' from opposer."`.  The body reads
and writes no arbitration state, so the context is returned
unchanged. -/
def request_opposer_evidence (ctx : ToolCtx) (question : String) : String × ToolCtx :=
  ("Simulated response to " ++ sq ++ question ++ sq ++ " from opposer.", ctx)

/-- agent.py `request_defender_evidence` (lines 115-140): symmetric to
the opposer tool. -/
def request_defender_evidence (ctx : ToolCtx) (question : String) : String × ToolCtx :=
  ("Simulated response to " ++ sq ++ question ++ sq ++ " from defender.", ctx)

end AIArbiter

namespace AIArbiter

/-- C1: the Result Formatter is claimed to be total over every
well-formed `ArbitrationDecision` and to return the wire dict including
`message` without raising.  In fact models.py declares no `message`
field on `ArbitrationDecision`, so the access `decision.message` in
services.py line 206 raises `AttributeError` for every decision the
model can produce; the formatter never returns the wire dict. -/
theorem c1_formatter_always_raises_attribute_error (d : ArbitrationDecision) :
    formatArbitrationDecision d = Except.error (PyError.attributeError "message") := rfl

/-- C2: dependency preparation is claimed to succeed for a well-formed
non-empty policy and empty evidence lists.  In fact the
`ArbiterDependency` dataclass has a required `context` field with no
default and the construction site passes no `context`, so
`_prepare_agent_dependencies` raises `TypeError` for every request with
a policy -- empty or non-empty evidence alike -- and processing never
reaches the agent. -/
theorem c2_prepare_dependencies_always_type_error (p : Policy)
    (oe de : List Evidence) (q : String) :
    prepareAgentDependencies ⟨some p, oe, de, q⟩ =
      Except.error (PyError.typeError missingContextMsg) := rfl

/-! ### Concrete fixtures used by closed theorems -/

/-- A concrete timestamp. -/
def dtEx : DateTime := ⟨"2024-01-01T00:00:00", "datetime.datetime(2024, 1, 1, 0, 0)"⟩

/-- A concrete well-formed policy. -/
def policyEx : Policy := ⟨"p-1", "u-1", "Remote Work Policy", none, dtEx⟩

/-- A concrete request carrying the policy and empty evidence lists. -/
def reqEx : RequestData := ⟨some policyEx, [], [], "enforce the policy"⟩

/-- A concrete agent-stream script delivering no partial outputs. -/
def scriptEx : AgentStreamScript := ⟨[], none⟩

/-- Concrete dependencies with an empty conversation history. -/
def depsEx : ArbiterDependency := ⟨policyEx, [], [], some ⟨[]⟩⟩

/-- A concrete tool context with empty history. -/
def ctxEx : ToolCtx := ⟨depsEx, []⟩

/-- C3: streaming frames are claimed to all be SSE frames of the exact
form `data: <json>\n\n` with typed payloads and a timestamped error
frame.  Evaluating the code: (1) a partial frame does not begin with
`data: ` (its first six characters differ); (2) the service error
payload carries only the keys `type` and `message`, with no
`timestamp`; (3) a concrete streaming run emits a bare error frame. -/
theorem c3_stream_frame_shapes :
    ((partFrame (dumpsObj [])).data.take 6 ≠ ("data: ").data)
    ∧ ((errorPayload "boom").map Prod.fst = ["type", "message"])
    ∧ (streamBody reqEx scriptEx = [serviceErrorFrame missingContextMsg]) := by
  refine ⟨by decide, rfl, rfl⟩

/-- C5: a request without a `policy` field: dependency preparation
fails with the `ValueError` of services.py line 125, the non-streaming
route answers with an error status (never a success response), and the
streaming route emits exactly one error frame and closes. -/
theorem c5_missing_policy_rejected (oe de : List Evidence) (q ts : String)
    (backend : List BackendResult) (script : AgentStreamScript) :
    prepareAgentDependencies ⟨none, oe, de, q⟩ =
      Except.error (PyError.valueError policyRequiredMsg)
    ∧ arbitrateQuery ⟨true⟩ ⟨none, oe, de, q⟩ backend =
      ApiResponse.failure 500 "Arbitration processing failed"
    ∧ generateStream ts ⟨true⟩ ⟨none, oe, de, q⟩ script =
      [serviceErrorFrame policyRequiredMsg] :=
  ⟨rfl, rfl, rfl⟩

/-- C6: a successfully constructed `ArbitrationDecision` has confidence
in `[0, 1]` and the stored value equals the input (no clamping); an
out-of-range confidence fails pydantic validation. -/
theorem c6_confidence_validated_not_clamped (i pid oid did : String)
    (dt : DecisionType) (dec : String) (conf : ℚ) (reas : String) (cat : DateTime) :
    (∀ d, mkArbitrationDecision i pid oid did dt dec conf reas cat = Except.ok d →
      0 ≤ d.confidence ∧ d.confidence ≤ 1 ∧ d.confidence = conf)
    ∧ ((conf < 0 ∨ 1 < conf) →
      mkArbitrationDecision i pid oid did dt dec conf reas cat =
        Except.error (PyError.validationError
          "confidence: input should be in the interval [0.0, 1.0]")) := by
  constructor
  · intro d h
    by_cases hc : 0 ≤ conf ∧ conf ≤ 1
    · simp only [mkArbitrationDecision, confloat01, if_pos hc, bind, Except.bind,
        pure, Except.pure, Except.ok.injEq] at h
      subst h
      exact ⟨hc.1, hc.2, rfl⟩
    · simp only [mkArbitrationDecision, confloat01, if_neg hc, bind, Except.bind] at h
      cases h
  · intro hbad
    have hc : ¬ (0 ≤ conf ∧ conf ≤ 1) := by
      rintro ⟨h1, h2⟩
      rcases hbad with h | h
      · exact absurd h1 (not_le.mpr h)
      · exact absurd h2 (not_le.mpr h)
    simp only [mkArbitrationDecision, confloat01, if_neg hc, bind, Except.bind]

/-- A concrete in-range decision used by the C6 witness. -/
def dOkEx : ArbitrationDecision :=
  ⟨"d-1", "p-1", "o-1", "f-1", DecisionType.needs_more_info, "hold", 1/2,
    "insufficient evidence", dtEx⟩

/-- C6 witness: the theorem applied at confidence 1/2 (accepted,
unchanged) and at confidence 2 (rejected by validation). -/
theorem c6_confidence_validated_not_clamped_witness :
    (0 ≤ dOkEx.confidence ∧ dOkEx.confidence ≤ 1 ∧ dOkEx.confidence = 1/2)
    ∧ mkArbitrationDecision "d-1" "p-1" "o-1" "f-1" DecisionType.needs_more_info
        "hold" 2 "strong" dtEx =
      Except.error (PyError.validationError
        "confidence: input should be in the interval [0.0, 1.0]") := by
  constructor
  · refine (c6_confidence_validated_not_clamped "d-1" "p-1" "o-1" "f-1"
      DecisionType.needs_more_info "hold" (1/2) "insufficient evidence" dtEx).1 dOkEx ?_
    simp only [mkArbitrationDecision, confloat01, dOkEx]
    norm_num [bind, Except.bind, pure, Except.pure]
  · exact (c6_confidence_validated_not_clamped "d-1" "p-1" "o-1" "f-1"
      DecisionType.needs_more_info "hold" 2 "strong" dtEx).2 (Or.inr (by norm_num))

/-! ### Frame-kind predicates and disambiguation lemmas -/

/-- The frame is one of the malformed partial frames of the service
generator. -/
def isPartFrameP (s : String) : Prop := ∃ t, s = partFrame t

/-- The frame is an error frame (service- or main-level). -/
def isErrorFrameP (s : String) : Prop :=
  (∃ m, s = serviceErrorFrame m) ∨ (∃ m t, s = mainErrorFrame m t)

/-- The frame is the completion frame. -/
def isCompleteFrameP (s : String) : Prop := ∃ r, s = completeFrame r

/-- Any `data: `-prefixed string starts with the character `d`. -/
theorem dataPrefix_head (x : String) :
    ("data: " ++ x).data.head? = some (Char.ofNat 100) := by
  rw [String.data_append]; rfl

/-- A partial frame starts with a single-quote character. -/
theorem partFrame_head (t : String) :
    (partFrame t).data.head? = some (Char.ofNat 39) := by
  simp [partFrame, sq, String.data_append]

/-- A service error frame is never a partial frame. -/
theorem serviceErrorFrame_ne_partFrame (m t : String) :
    serviceErrorFrame m ≠ partFrame t := by
  intro h
  have h1 : some (Char.ofNat 100) = some (Char.ofNat 39) := by
    calc some (Char.ofNat 100) = (serviceErrorFrame m).data.head? :=
          (dataPrefix_head _).symm
    _ = (partFrame t).data.head? := by rw [h]
    _ = some (Char.ofNat 39) := partFrame_head t
  exact absurd h1 (by decide)

/-- A main error frame is never a partial frame. -/
theorem mainErrorFrame_ne_partFrame (m ts t : String) :
    mainErrorFrame m ts ≠ partFrame t := by
  intro h
  have h1 : some (Char.ofNat 100) = some (Char.ofNat 39) := by
    calc some (Char.ofNat 100) = (mainErrorFrame m ts).data.head? :=
          (dataPrefix_head _).symm
    _ = (partFrame t).data.head? := by rw [h]
    _ = some (Char.ofNat 39) := partFrame_head t
  exact absurd h1 (by decide)

/-- C4: every execution of the streaming path emits a frame sequence
whose last element is a completion or error frame, never a partial
frame, and nothing follows it; the partial frames that precede it are
forwarded in production order (with the current code no partial frame
precedes it, since dependency preparation fails on every request before
the agent stream starts, so the emitted sequence is a single terminal
frame). -/
theorem c4_stream_terminal_event (ts : String) (svc : ServiceState) (req : RequestData)
    (script : AgentStreamScript) :
    ∃ f, generateStream ts svc req script = [f]
      ∧ (isErrorFrameP f ∨ isCompleteFrameP f)
      ∧ ¬ isPartFrameP f := by
  obtain ⟨ini⟩ := svc
  cases ini with
  | false =>
    refine ⟨mainErrorFrame notInitializedMsg ts, rfl, Or.inl (Or.inr ⟨_, _, rfl⟩), ?_⟩
    rintro ⟨t, ht⟩
    exact mainErrorFrame_ne_partFrame _ _ _ ht
  | true =>
    obtain ⟨pol, oe, de, q⟩ := req
    cases pol with
    | none =>
      refine ⟨serviceErrorFrame policyRequiredMsg, rfl, Or.inl (Or.inl ⟨_, rfl⟩), ?_⟩
      rintro ⟨t, ht⟩
      exact serviceErrorFrame_ne_partFrame _ _ ht
    | some p =>
      refine ⟨serviceErrorFrame missingContextMsg, rfl, Or.inl (Or.inl ⟨_, rfl⟩), ?_⟩
      rintro ⟨t, ht⟩
      exact serviceErrorFrame_ne_partFrame _ _ ht

/-- C4 witness: the theorem at a concrete initialized service, request
and script. -/
theorem c4_stream_terminal_event_witness :
    ∃ f, generateStream "2024-01-01 00:00:00" ⟨true⟩ reqEx scriptEx = [f]
      ∧ (isErrorFrameP f ∨ isCompleteFrameP f)
      ∧ ¬ isPartFrameP f :=
  c4_stream_terminal_event "2024-01-01 00:00:00" ⟨true⟩ reqEx scriptEx

/-- C7: a reasoning-backend error is not retried -- `_call_agent`
consumes exactly one scripted backend outcome and returns, leaving the
rest of the script untouched -- and the raised exception propagates to
the caller unchanged (the `except` clause re-raises it); any error
escaping `process_arbitration` is surfaced by the route as a 500 server
error, and any error raised inside the streaming try-block is surfaced
as a stream error frame appended after the frames already emitted. -/
theorem c7_backend_error_propagates (q : String) (deps : ArbiterDependency)
    (e : PyError) (rest : List BackendResult) :
    callAgent q deps (Except.error e :: rest) = (Except.error e, rest)
    ∧ (∀ svc req backend e2, processArbitration svc req backend = Except.error e2 →
        arbitrateQuery svc req backend = ApiResponse.failure 500 "Arbitration processing failed")
    ∧ (∀ req script frames e3, streamAttempt req script = (frames, some e3) →
        streamBody req script = frames ++ [serviceErrorFrame (PyError.message e3)]) := by
  refine ⟨rfl, ?_, ?_⟩
  · intro svc req backend e2 h
    simp [arbitrateQuery, h]
  · intro req script frames e3 h
    simp [streamBody, h]

/-- C7 witness: the theorem applied at a concrete timeout error and at
concrete inputs discharging both surfacing hypotheses. -/
theorem c7_backend_error_propagates_witness :
    callAgent "q" depsEx [Except.error (PyError.runtimeError "model timeout")] =
      (Except.error (PyError.runtimeError "model timeout"), [])
    ∧ arbitrateQuery ⟨true⟩ reqEx [] = ApiResponse.failure 500 "Arbitration processing failed"
    ∧ streamBody reqEx scriptEx =
        [] ++ [serviceErrorFrame (PyError.message (PyError.typeError missingContextMsg))] := by
  obtain ⟨h1, h2, h3⟩ :=
    c7_backend_error_propagates "q" depsEx (PyError.runtimeError "model timeout") []
  exact ⟨h1, h2 ⟨true⟩ reqEx [] (PyError.typeError missingContextMsg) rfl,
    h3 reqEx scriptEx [] (PyError.typeError missingContextMsg) rfl⟩

/-- C9 counterexample: the claim says a tool invocation records the
question/answer pair into the conversation history.  Invoking
`request_opposer_evidence` on a concrete context with empty history
leaves the history empty -- it contains no entry at all, hence not the
Q/A pair -- and the defender tool behaves identically. -/
theorem c9_counterexample :
    ((request_opposer_evidence ctxEx "What changed?").2.messages = [])
    ∧ ((request_defender_evidence ctxEx "What changed?").2.messages = [])
    ∧ ¬ (∃ m, m ∈ (request_opposer_evidence ctxEx "What changed?").2.messages) := by
  refine ⟨rfl, rfl, ?_⟩
  rintro ⟨m, hm⟩
  simp [request_opposer_evidence, ctxEx] at hm

/-- C9 (amended): each tool invocation returns the simulated response
string embedding the question and modifies no arbitration state at all
-- in particular nothing is recorded into the conversation history by
the tool body; any bookkeeping of tool calls happens in the external
agent framework, not in this repository. -/
theorem c9_tools_pure_no_recording (ctx : ToolCtx) (q : String) :
    (request_opposer_evidence ctx q).2 = ctx
    ∧ (request_defender_evidence ctx q).2 = ctx
    ∧ (request_opposer_evidence ctx q).1 =
        "Simulated response to " ++ sq ++ q ++ sq ++ " from opposer."
    ∧ (request_defender_evidence ctx q).1 =
        "Simulated response to " ++ sq ++ q ++ sq ++ " from defender." :=
  ⟨rfl, rfl, rfl, rfl⟩

/-- C10: with a freshly constructed service (`is_initialized = False`)
both processing entry points fail with `RuntimeError` regardless of the
request, before dependency preparation or any agent call can happen;
after `initialize()` the flag is `True` and both operations pass the
guard (their outcome is never the guard error, and the stream generator
actually starts). -/
theorem c10_initialization_guard (req : RequestData) (backend : List BackendResult)
    (script : AgentStreamScript) :
    processArbitration mkArbiterService req backend =
      Except.error (PyError.runtimeError notInitializedMsg)
    ∧ processArbitrationStream mkArbiterService req script =
      Except.error (PyError.runtimeError notInitializedMsg)
    ∧ (initializeService mkArbiterService).is_initialized = true
    ∧ (∀ m, processArbitration (initializeService mkArbiterService) req backend ≠
        Except.error (PyError.runtimeError m))
    ∧ (∃ frames, processArbitrationStream (initializeService mkArbiterService) req script =
        Except.ok frames) := by
  refine ⟨rfl, rfl, rfl, ?_, ⟨streamBody req script, rfl⟩⟩
  intro m
  obtain ⟨pol, oe, de, q⟩ := req
  cases pol with
  | none =>
    simp [processArbitration, initializeService, prepareAgentDependencies,
      bind, Except.bind]
  | some p =>
    simp [processArbitration, initializeService, prepareAgentDependencies,
      mkArbiterDependency, bind, Except.bind]

/-! ### Order preservation inside the assembled context (C8) -/

/-- Unfolding `pyJoin` on a cons with a non-empty tail. -/
theorem pyJoin_cons_of_ne (sep s : String) (l : List String) (h : l ≠ []) :
    pyJoin sep (s :: l) = s ++ sep ++ pyJoin sep l := by
  cases l with
  | nil => exact absurd rfl h
  | cons y ys => rfl

/-- Any element of a joined rendering appears as a contiguous chunk. -/
theorem pyJoinMap_get_split (sep : String) (f : α → String) :
    ∀ (l : List α) (k : Nat) (hk : k < l.length),
    ∃ a b, pyJoin sep (l.map f) = a ++ f (l.get ⟨k, hk⟩) ++ b := by
  intro l
  induction l with
  | nil => intro k hk; exact absurd hk (by simp)
  | cons x xs ih =>
    intro k hk
    cases k with
    | zero =>
      cases xs with
      | nil =>
        refine ⟨"", "", ?_⟩
        simp [pyJoin, String.append_empty, String.empty_append]
      | cons y ys =>
        refine ⟨"", sep ++ pyJoin sep ((y :: ys).map f), ?_⟩
        simp [pyJoin, String.append_assoc, String.empty_append]
    | succ k =>
      have hxs : k < xs.length := by
        simp only [List.length_cons] at hk
        omega
      obtain ⟨a, b, hab⟩ := ih k hxs
      have hne : xs.map f ≠ [] := by
        cases xs with
        | nil => simp at hxs
        | cons _ _ => simp
      have hget : (x :: xs).get ⟨k + 1, hk⟩ = xs.get ⟨k, hxs⟩ := rfl
      refine ⟨f x ++ sep ++ a, b, ?_⟩
      rw [List.map_cons, pyJoin_cons_of_ne _ _ _ hne, hab, hget]
      simp [String.append_assoc]

/-- Two elements of a joined rendering appear as chunks in list
order. -/
theorem pyJoinMap_get_split_two (sep : String) (f : α → String) :
    ∀ (l : List α) (i j : Nat) (hij : i < j) (hj : j < l.length),
    ∃ a b c2, pyJoin sep (l.map f) =
      a ++ f (l.get ⟨i, Nat.lt_trans hij hj⟩) ++ b ++ f (l.get ⟨j, hj⟩) ++ c2 := by
  intro l
  induction l with
  | nil => intro i j hij hj; exact absurd hj (by simp)
  | cons x xs ih =>
    intro i j hij hj
    cases j with
    | zero => exact absurd hij (by omega)
    | succ j =>
      have hj2 : j < xs.length := by
        simp only [List.length_cons] at hj
        omega
      have hne : xs.map f ≠ [] := by
        cases xs with
        | nil => simp at hj2
        | cons _ _ => simp
      have hgetj : (x :: xs).get ⟨j + 1, hj⟩ = xs.get ⟨j, hj2⟩ := rfl
      cases i with
      | zero =>
        obtain ⟨a, b, hab⟩ := pyJoinMap_get_split sep f xs j hj2
        have hget0 : (x :: xs).get ⟨0, Nat.lt_trans hij hj⟩ = x := rfl
        refine ⟨"", sep ++ a, b, ?_⟩
        rw [List.map_cons, pyJoin_cons_of_ne _ _ _ hne, hab, hgetj, hget0]
        simp [String.append_assoc, String.empty_append]
      | succ i =>
        have hij2 : i < j := Nat.lt_of_succ_lt_succ hij
        obtain ⟨a, b, c2, habc⟩ := ih i j hij2 hj2
        have hgeti : (x :: xs).get ⟨i + 1, Nat.lt_trans hij hj⟩ =
            xs.get ⟨i, Nat.lt_trans hij2 hj2⟩ := rfl
        refine ⟨f x ++ sep ++ a, b, c2, ?_⟩
        rw [List.map_cons, pyJoin_cons_of_ne _ _ _ hne, habc, hgeti, hgetj]
        simp [String.append_assoc]

/-- The repr of one evidence is a chunk embedding its `content`. -/
theorem reprEvidence_split (e : Evidence) :
    ∃ u v, reprEvidence e = u ++ e.content ++ v := by
  refine ⟨"Evidence(id=UUID(" ++ sq ++ e.id ++ sq ++ "), policy_id=UUID(" ++ sq
    ++ e.policy_id ++ sq ++ "), submitter_id=UUID(" ++ sq ++ e.submitter_id ++ sq
    ++ "), content=" ++ sq, sq ++ ", created_at=" ++ e.created_at.rep ++ ")", ?_⟩
  simp [reprEvidence, String.append_assoc]

/-- In any string of the form `P ++ pyListRepr l ++ S`, two evidences
at positions `i < j` of `l` have their contents appear in that order. -/
theorem evidence_order_in_wrapped (P S : String) (l : List Evidence) (i j : Nat)
    (hij : i < j) (hj : j < l.length) :
    ∃ s1 s2 s3, P ++ pyListRepr l ++ S =
      s1 ++ (l.get ⟨i, Nat.lt_trans hij hj⟩).content ++ s2
        ++ (l.get ⟨j, hj⟩).content ++ s3 := by
  obtain ⟨a, b, c2, habc⟩ := pyJoinMap_get_split_two ", " reprEvidence l i j hij hj
  obtain ⟨uA, vA, hA⟩ := reprEvidence_split (l.get ⟨i, Nat.lt_trans hij hj⟩)
  obtain ⟨uB, vB, hB⟩ := reprEvidence_split (l.get ⟨j, hj⟩)
  refine ⟨P ++ "[" ++ a ++ uA, vA ++ b ++ uB, vB ++ c2 ++ "]" ++ S, ?_⟩
  rw [pyListRepr, pyListReprWith, habc, hA, hB]
  simp [String.append_assoc]

/-- C8: when the context is present, the assembled system prompt is the
rubric text, then the policy, then the defender evidence section, then
the opposer evidence section, then the conversation history, in that
fixed order; and within either evidence section the contents of two
evidences submitted in order appear in that order in the prompt. -/
theorem c8_context_order (deps : ArbiterDependency) (c : RunCtx)
    (hc : deps.context = some c) :
    (getSystemPrompt deps = Except.ok (rubricText ++ strPolicy deps.policy
        ++ defenderHeader ++ pyListRepr deps.defender_evidences
        ++ opposerHeader ++ pyListRepr deps.opposer_evidences
        ++ contextHeader ++ pyStrListRepr c.messages ++ promptTail))
    ∧ (∀ s, getSystemPrompt deps = Except.ok s →
        ∀ l, (l = deps.defender_evidences ∨ l = deps.opposer_evidences) →
        ∀ i j (hij : i < j) (hj : j < l.length),
          ∃ s1 s2 s3, s = s1 ++ (l.get ⟨i, Nat.lt_trans hij hj⟩).content ++ s2
            ++ (l.get ⟨j, hj⟩).content ++ s3) := by
  have h1 : getSystemPrompt deps = Except.ok (rubricText ++ strPolicy deps.policy
      ++ defenderHeader ++ pyListRepr deps.defender_evidences
      ++ opposerHeader ++ pyListRepr deps.opposer_evidences
      ++ contextHeader ++ pyStrListRepr c.messages ++ promptTail) := by
    simp [getSystemPrompt, hc]
  refine ⟨h1, ?_⟩
  intro s hs l hl i j hij hj
  have hse : s = rubricText ++ strPolicy deps.policy
      ++ defenderHeader ++ pyListRepr deps.defender_evidences
      ++ opposerHeader ++ pyListRepr deps.opposer_evidences
      ++ contextHeader ++ pyStrListRepr c.messages ++ promptTail := by
    rw [hs] at h1
    exact Except.ok.inj h1
  rcases hl with rfl | rfl
  · obtain ⟨s1, s2, s3, hsplit⟩ := evidence_order_in_wrapped
      (rubricText ++ strPolicy deps.policy ++ defenderHeader)
      (opposerHeader ++ pyListRepr deps.opposer_evidences
        ++ contextHeader ++ pyStrListRepr c.messages ++ promptTail)
      deps.defender_evidences i j hij hj
    refine ⟨s1, s2, s3, ?_⟩
    rw [hse, ← hsplit]
    simp [String.append_assoc]
  · obtain ⟨s1, s2, s3, hsplit⟩ := evidence_order_in_wrapped
      (rubricText ++ strPolicy deps.policy ++ defenderHeader
        ++ pyListRepr deps.defender_evidences ++ opposerHeader)
      (contextHeader ++ pyStrListRepr c.messages ++ promptTail)
      deps.opposer_evidences i j hij hj
    refine ⟨s1, s2, s3, ?_⟩
    rw [hse, ← hsplit]
    simp [String.append_assoc]

/-- Two concrete evidences used by the C8 witness. -/
def evA : Evidence := ⟨"e-1", "p-1", "o-1", "productivity dropped 20 percent", dtEx⟩

/-- Second concrete evidence. -/
def evB : Evidence := ⟨"e-2", "p-1", "u-1", "tracking tools implemented", dtEx⟩

/-- Concrete dependencies with two evidences on each side and one
history message. -/
def depsTwoEx : ArbiterDependency := ⟨policyEx, [evA, evB], [evA, evB], some ⟨["m1"]⟩⟩

/-- The prompt assembled for `depsTwoEx`. -/
def promptTwoEx : String :=
  rubricText ++ strPolicy depsTwoEx.policy
    ++ defenderHeader ++ pyListRepr depsTwoEx.defender_evidences
    ++ opposerHeader ++ pyListRepr depsTwoEx.opposer_evidences
    ++ contextHeader ++ pyStrListRepr ["m1"] ++ promptTail

/-- C8 witness: the theorem at concrete dependencies, with the order
statement instantiated at positions 0 and 1 of the defender list. -/
theorem c8_context_order_witness :
    getSystemPrompt depsTwoEx = Except.ok promptTwoEx
    ∧ ∃ s1 s2 s3, promptTwoEx = s1 ++ evA.content ++ s2 ++ evB.content ++ s3 := by
  obtain ⟨h1, h2⟩ := c8_context_order depsTwoEx ⟨["m1"]⟩ rfl
  refine ⟨h1, ?_⟩
  obtain ⟨s1, s2, s3, hs⟩ := h2 promptTwoEx h1 depsTwoEx.defender_evidences
    (Or.inl rfl) 0 1 (by decide) (by decide)
  exact ⟨s1, s2, s3, hs⟩

/-- C10 witness: the theorem at a concrete request and script. -/
theorem c10_initialization_guard_witness :
    processArbitration mkArbiterService reqEx [] =
      Except.error (PyError.runtimeError notInitializedMsg)
    ∧ (initializeService mkArbiterService).is_initialized = true
    ∧ processArbitration (initializeService mkArbiterService) reqEx [] ≠
        Except.error (PyError.runtimeError "boom")
    ∧ ∃ frames, processArbitrationStream (initializeService mkArbiterService) reqEx scriptEx =
        Except.ok frames := by
  obtain ⟨h1, h2, h3, h4, h5⟩ := c10_initialization_guard reqEx [] scriptEx
  exact ⟨h1, h3, h4 "boom", h5⟩

end AIArbiter
